import Mathlib

/-
Verification of the ceph-csi `troubleshooting/tools/tracevol.py` reconciliation
tool against its natural-language specification.

The Python source is shallowly embedded: every external subprocess invocation
is abstracted as a lookup in an `Env` record holding, for each command, the
captured output of `Popen(..., stdout=PIPE, stderr=STDOUT).communicate()`
(a stdout string together with the `stderr` value, which Python returns as
`None` unless stderr is a pipe), and — where the program immediately feeds the
output to `json.loads` — the outcome of that parse as an `Option` of the
decoded shape.  Control flow (early `return`, `raise`, `sys.exit()`) is made
explicit with the `Out` outcome type.  String/bytes operations (`strip`,
`split`, substring `in`, `re.findall` of `[A-Za-z0-9\-]+` runs, `int(...)`)
are modelled directly on Lean `String`.
-/

namespace Tracevol

/-- Python substring test `needle in hay` on strings/bytes: auxiliary scan. -/
def strInfixAux (n : List Char) : List Char → Bool
  | [] => n.isEmpty
  | c :: cs => n.isPrefixOf (c :: cs) || strInfixAux n cs

/-- Python substring containment `needle in hay` (case-sensitive, empty needle
is contained in everything, as in Python). -/
def pyIn (needle hay : String) : Bool :=
  strInfixAux needle.toList hay.toList

/-- Character class of the regex `[A-Za-z0-9\-]` used by
`re.findall(br'[A-Za-z0-9\-]+', line)` in the source. -/
def isWordChar (c : Char) : Bool :=
  c.isAlpha || c.isDigit || c == '-'

/-- Accumulating scanner producing the maximal runs matched by
`re.findall(br'[A-Za-z0-9\-]+', line)`, in order.  `cur` is the current run
reversed, `acc` the finished runs. -/
def wordRunsAux (cur : List Char) (acc : List (List Char)) :
    List Char → List (List Char)
  | [] => if cur.isEmpty then acc else acc ++ [cur.reverse]
  | c :: cs =>
    if isWordChar c then wordRunsAux (c :: cur) acc cs
    else if cur.isEmpty then wordRunsAux [] acc cs
    else wordRunsAux [] (acc ++ [cur.reverse]) cs

/-- `re.findall(br'[A-Za-z0-9\-]+', line)`: all maximal alphanumeric/dash
runs of `s`, in order. -/
def wordRuns (s : String) : List String :=
  (wordRunsAux [] [] s.toList).map (fun l => ⟨l⟩)

/-- Splitting scan: `cur` holds the current field reversed. -/
def splitCharAux (sep : Char) (cur : List Char) : List Char → List String
  | [] => [⟨cur.reverse⟩]
  | c :: cs =>
    if c = sep then ⟨cur.reverse⟩ :: splitCharAux sep [] cs
    else splitCharAux sep (c :: cur) cs

/-- Python `s.split(sep)` for a one-character separator (the source only
splits on `b"\n"` and `'-'`): the empty string yields `[""]`, and empty
fields are preserved, as in Python. -/
def pySplitChar (sep : Char) (s : String) : List String :=
  splitCharAux sep [] s.toList

/-- Python `s.strip()`: drop whitespace from both ends. -/
def pyStrip (s : String) : String :=
  ⟨((s.toList.dropWhile Char.isWhitespace).reverse.dropWhile
      Char.isWhitespace).reverse⟩

/-- Decimal value of a digit list, `none` on any non-digit. -/
def digitsToNat (acc : Nat) : List Char → Option Nat
  | [] => some acc
  | c :: cs =>
    if c.isDigit then digitsToNat (acc * 10 + (c.toNat - 48)) cs else none

/-- Decimal value of a non-empty digit list. -/
def digitsToNatNE (l : List Char) : Option Nat :=
  if l.isEmpty then none else digitsToNat 0 l

/-- Python `int(s)` on a string: optional sign after stripping surrounding
whitespace, then a non-empty digit sequence; `none` models the `ValueError`
raised otherwise. -/
def pyIntParse (s : String) : Option Int :=
  let t := (pyStrip s).toList
  match t with
  | [] => none
  | c :: rest =>
    if c = '-' then (digitsToNatNE rest).map (fun n => -(n : Int))
    else if c = '+' then (digitsToNatNE rest).map (fun n => (n : Int))
    else (digitsToNatNE t).map (fun n => (n : Int))

/-- Python `sep.join(parts)`. -/
def joinWith (sep : String) : List String → String
  | [] => ""
  | [x] => x
  | x :: y :: ys => x ++ sep ++ joinWith sep (y :: ys)

/-- CPython semantics of the source's `int(pool_id) is int(pool['poolnum'])`
(tracevol.py line 403): the left operand is freshly parsed from a string and
the right operand is the integer decoded from JSON, so the two are the same
object exactly when they are equal and lie in CPython's cached small-integer
range -5..256.  For equal values outside that range the `is` test is false. -/
def pyIntIs (a b : Int) : Bool :=
  a == b && decide (-5 ≤ a) && decide (a ≤ 256)

/-- Result of `communicate()` on a spawned subprocess: captured stdout (we
model bytes as `String`) and the `stderr` component of the returned pair. -/
structure CmdOut where
  stdout : String
  stderr : Option String
deriving DecidableEq

/-- `communicate()` on a process opened with `stderr=subprocess.STDOUT`:
stderr is merged into stdout and the returned `stderr` value is `None`
(Python subprocess semantics: only `stderr=PIPE` yields a non-`None` value). -/
def communicate_merged (stdout : String) : CmdOut :=
  ⟨stdout, none⟩

/-- One entry of the JSON list printed by `ceph osd lspools --format=json`. -/
structure Pool where
  poolnum : Int
  poolname : String
deriving DecidableEq

/-- One entry of the JSON list printed by `ceph fs ls --format=json`. -/
structure FsEnt where
  metadata_pool : String
deriving DecidableEq

/-- The part of a PersistentVolume JSON document the tool reads:
`spec.csi.volumeHandle` and the `spec.csi.volumeAttributes` map (modelled as
an association list with distinct keys).  A successfully parsed document is
assumed to have this shape; `json.loads` failure is modelled separately. -/
structure PvSpec where
  volumeHandle : String
  volumeAttributes : List (String × String)
deriving DecidableEq

/-- The part of a PersistentVolumeClaim JSON item the batch loop reads:
`metadata.name` and `spec.volumeName`. -/
structure ClaimObj where
  name : String
  volumeName : String
deriving DecidableEq

/-- One row appended to a report table by `format_table`:
claim name, PV name, image/subvolume name, and the three booleans. -/
structure Row where
  pvcName : String
  pvName : String
  imageName : String
  pvPresent : Bool
  uuidPresent : Bool
  inCluster : Bool
deriving DecidableEq

/-- Decoded `data.get('config.json')` of the cephcsi configmap. -/
structure CmData where
  configJson : Option String
deriving DecidableEq

/-- Outcome of running a piece of the Python program: a normal value, an
uncaught raised exception (with its message), or `sys.exit()`. -/
inductive Out (α : Type) where
  | ok (a : α)
  | exn (msg : String)
  | exit
deriving DecidableEq

/-- The external world as observed by one run of the tool: for each external
command the output captured by `communicate()` and, where the program parses
that output as JSON, the parse outcome (`none` models `ValueError`).  The
cluster state is stable during a run, so equal commands yield equal outputs. -/
structure Env where
  /-- `kubectl/oc get pv NAME -o json`, keyed by PV name (used by both
  `get_pv_data` and `get_volume_handler_from_pv`). -/
  pvOut : String → CmdOut
  /-- `json.loads` outcome of `(pvOut name).stdout`. -/
  pvJson : String → Option PvSpec
  /-- `ceph osd lspools --format=json`. -/
  poolsOut : CmdOut
  /-- `json.loads` outcome of `poolsOut.stdout`. -/
  poolsJson : Option (List Pool)
  /-- `ceph fs ls --format=json`. -/
  fsOut : CmdOut
  /-- `json.loads` outcome of `fsOut.stdout`. -/
  fsJson : Option (List FsEnt)
  /-- `rados getomapval csi.volumes.default KEY --pool ...`, keyed by the
  omap key. -/
  omapVolDefault : String → CmdOut
  /-- `rados getomapval OBJ csi.volname --pool ...`, keyed by the object
  name. -/
  omapVolname : String → CmdOut
  /-- `rbd info IMAGE --pool POOL`, keyed by image then pool. -/
  rbdInfo : String → String → CmdOut
  /-- `ceph fs subvolume getpath FS NAME GROUP`, keyed by the three
  arguments in that order. -/
  subvolPath : String → String → String → CmdOut
  /-- `kubectl/oc get cm CONFIGMAP -o json`. -/
  cmOut : CmdOut
  /-- `json.loads` outcome of `cmOut.stdout` projected to
  `data.get('config.json')`. -/
  cmJson : Option CmData
  /-- `json.loads(cm_data)[0]['cephFS']['subvolumeGroup']` outcome, keyed by
  the `config.json` payload string (`none` models `ValueError`). -/
  cmInner : String → Option String

/-- The parsed command-line options threaded through every function
(only the fields the embedded logic reads are retained). -/
structure Arg where
  command : String
  kubeconfig : String
  rooknamespace : String
  userid : String
  userkey : String
  toolboxdeployed : Bool
  debug : Bool
deriving DecidableEq

/-! ## The embedded program functions -/

/-- The value-reconstruction loop shared by `check_pv_name_in_rados`
(lines 203-212) and `check_image_uuid_in_rados` (lines 267-276):
`name = b''; for line in lines: ...` over already-stripped lines, skipping
lines without a space and annotation lines containing both `value` and
`bytes`, and appending `part[-1]` — the last alphanumeric/dash run — of every
other line. -/
def omap_loop (name : String) : List String → String
  | [] => name
  | line :: rest =>
    if pyIn " " line = false then omap_loop name rest
    else if pyIn "value" line && pyIn "bytes" line then omap_loop name rest
    else
      match (wordRuns line).getLast? with
      | some part => omap_loop (name ++ part) rest
      | none => omap_loop name rest

/-- `lines = [x.strip() for x in stdout.split(b"\n")]` followed by the
reconstruction loop, on the already split line list. -/
def parse_omap_lines (ls : List String) : String :=
  omap_loop "" (ls.map pyStrip)

/-- The full omap-value reconstruction applied to the raw `rados getomapval`
stdout: split on newlines, strip each line, run the loop. -/
def parse_omap_value (stdout : String) : String :=
  parse_omap_lines (pySplitChar '\n' stdout)

/-- `check_pv_name_in_rados(arg, image_id, pvc_name, pool_name, is_rbd)`
(lines 184-218): builds omap key `csi.volume.<pvc_name>` (the caller passes
the PV name for this parameter), reads
`rados getomapval csi.volumes.default <key>`, returns `False` on a non-`None`
stderr, otherwise parses the dump and compares it to `image_id`.
`pool_name`/`is_rbd` only alter the command line, not which map entry the
abstract store serves, so the env lookup is keyed by the omap key alone. -/
def check_pv_name_in_rados (env : Env) (image_id pvc_name pool_name : String)
    (is_rbd : Bool) : Bool :=
  let omapkey := "csi.volume." ++ pvc_name
  let out := env.omapVolDefault omapkey
  match out.stderr with
  | some _ => false
  | none =>
    let _ := pool_name
    let _ := is_rbd
    parse_omap_value out.stdout == image_id

/-- `check_image_uuid_in_rados(arg, image_id, pvc_name, pool_name, is_rbd)`
(lines 245-282): reads `rados getomapval csi.volume.<image_id> csi.volname`,
returns `False` on a non-`None` stderr, otherwise parses the dump and
compares it to `pvc_name` (the caller passes the PV name). -/
def check_image_uuid_in_rados (env : Env) (image_id pvc_name pool_name : String)
    (is_rbd : Bool) : Bool :=
  let omapkey := "csi.volume." ++ image_id
  let out := env.omapVolname omapkey
  match out.stderr with
  | some _ => false
  | none =>
    let _ := pool_name
    let _ := is_rbd
    parse_omap_value out.stdout == pvc_name

/-- `validate_volume_in_rados(arg, image_id, pvc_name, pool_name, is_rbd)`
(lines 176-182): runs the forward check then the reverse check and returns
the pair.  Each check spawns its own subprocess and mutates no shared state,
so the pair is a pure function of the environment and the arguments. -/
def validate_volume_in_rados (env : Env) (image_id pvc_name pool_name : String)
    (is_rbd : Bool) : Bool × Bool :=
  let pv_present := check_pv_name_in_rados env image_id pvc_name pool_name is_rbd
  let uuid_present := check_image_uuid_in_rados env image_id pvc_name pool_name is_rbd
  (pv_present, uuid_present)

/-- The same two checks computed in the opposite order (reverse first,
forward second), used to state their commutativity. -/
def validate_volume_in_rados_rev (env : Env) (image_id pvc_name pool_name : String)
    (is_rbd : Bool) : Bool × Bool :=
  let uuid_present := check_image_uuid_in_rados env image_id pvc_name pool_name is_rbd
  let pv_present := check_pv_name_in_rados env image_id pvc_name pool_name is_rbd
  (pv_present, uuid_present)

/-- `check_image_in_cluster(arg, image_uuid, pool_name, volname_prefix)`
(lines 220-243): runs `rbd info <prefix><uuid> --pool <pool>`, returns
`False` on a non-`None` stderr, `False` when the output contains
`No such file or directory`, otherwise `True`. -/
def check_image_in_cluster (env : Env) (image_uuid pool_name pfx : String) : Bool :=
  let image := pfx ++ image_uuid
  let out := env.rbdInfo image pool_name
  match out.stderr with
  | some _ => false
  | none =>
    if pyIn "No such file or directory" out.stdout then false else true

/-- `get_image_uuid(volume_handler)` (lines 299-307): split the handle on
dashes; fewer than 9 tokens yields `None`, otherwise the last 5 tokens
rejoined with dashes. -/
def get_image_uuid (volume_handler : String) : Option String :=
  let image_id := pySplitChar '-' volume_handler
  if image_id.length < 9 then none
  else some (joinWith "-" (image_id.drop (image_id.length - 5)))

/-- `get_volume_handler_from_pv(arg, pvname)` (lines 310-336): reads
`get pv <pvname> -o json`; returns `""` on a non-`None` stderr, the handle
on a successful parse, and `""` on a `ValueError` from `json.loads`
(a parsed document is assumed to carry `spec.csi.volumeHandle`). -/
def get_volume_handler_from_pv (env : Env) (pvname : String) : String :=
  let out := env.pvOut pvname
  match out.stderr with
  | some _ => ""
  | none =>
    match env.pvJson pvname with
    | none => ""
    | some vol => vol.volumeHandle

/-- The scan `for pool in pools: if int(pool_id) is int(pool['poolnum']):
return pool['poolname']` of `get_pool_name` followed by the trailing
`return ""` (lines 402-408).  `int(pool_id)` is evaluated inside the loop, so
a non-numeric pool id raises `ValueError` only when the list is non-empty;
the comparison is CPython `is` on the two integers (`pyIntIs`). -/
def find_pool (pool_id : String) : List Pool → Out String
  | [] => .ok ""
  | p :: ps =>
    match pyIntParse pool_id with
    | none => .exn "invalid literal for int"
    | some n =>
      if pyIntIs n p.poolnum then .ok p.poolname else find_pool pool_id ps

/-- `get_pool_name(arg, vol_id, is_rbd)` (lines 367-408): returns `""` on a
non-`None` stderr or a `ValueError` from `json.loads`.  In block mode it
splits the handle, raises `Exception("pool id not in the proper format")`
for fewer than 4 tokens, selects token 4 when token 3 is a substring of the
rook namespace (raising `IndexError` when no token 4 exists) and token 3
otherwise, and scans the pool list; in filesystem mode it returns the first
entry's `metadata_pool`, or `""` for an empty listing. -/
def get_pool_name (env : Env) (arg : Arg) (vol_id : String) (is_rbd : Bool) :
    Out String :=
  let out := if is_rbd then env.poolsOut else env.fsOut
  match out.stderr with
  | some _ => .ok ""
  | none =>
    if is_rbd then
      match env.poolsJson with
      | none => .ok ""
      | some pools =>
        let pool_id := pySplitChar '-' vol_id
        if pool_id.length < 4 then .exn "pool id not in the proper format"
        else if pyIn (pool_id.getD 3 "") arg.rooknamespace then
          if pool_id.length ≤ 4 then .exn "IndexError: list index out of range"
          else find_pool (pool_id.getD 4 "") pools
        else find_pool (pool_id.getD 3 "") pools
    else
      match env.fsJson with
      | none => .ok ""
      | some [] => .ok ""
      | some (f :: _) => .ok f.metadata_pool

/-- `get_pv_data(arg, pvname)` (lines 501-528): reads `get pv <pvname> -o
json`; a non-`None` stderr or a `ValueError` from `json.loads` both reach an
unconditional `sys.exit()`. -/
def get_pv_data (env : Env) (pvname : String) : Out PvSpec :=
  let out := env.pvOut pvname
  match out.stderr with
  | some _ => .exit
  | none =>
    match env.pvJson pvname with
    | none => .exit
    | some pvdata => .ok pvdata

/-- `get_volname_prefix(arg, pvdata)` (lines 530-544, renamed because of the
proof-environment's lexical restrictions): the `volumeNamePrefix` volume
attribute when present, else the default `csi-vol-`.  A parsed `PvSpec` is
never the empty dict, so the `if not pvdata: sys.exit()` guard cannot fire. -/
def get_volname_pfx (pvdata : PvSpec) : String :=
  (pvdata.volumeAttributes.lookup "volumeNamePrefix").getD "csi-vol-"

/-- `get_fsname_from_pvdata(arg, pvdata)` (lines 546-563): the `fsName`
volume attribute when present; its absence reaches an unconditional
`sys.exit()`. -/
def get_fsname_from_pvdata (pvdata : PvSpec) : Out String :=
  match pvdata.volumeAttributes.lookup "fsName" with
  | some v => .ok v
  | none => .exit

/-- `is_rbd_pv(arg, pvname, pvdata)` (lines 485-499): `False` when the
volume attributes contain the key `fsName`, else `True` (a parsed `PvSpec`
is never the empty dict, so the `sys.exit()` guard cannot fire). -/
def is_rbd_pv (pvdata : PvSpec) : Bool :=
  !(pvdata.volumeAttributes.lookup "fsName").isSome

/-- `get_subvol_group(arg)` (lines 443-483): reads the configmap.  Note the
source indentation: on a non-`None` stderr `sys.exit()` is reached only when
`arg.debug` is set; a `ValueError` from `json.loads` always exits.  With a
decoded configmap, defaults to `csi` unless `config.json` is present and
mentions `subvolumeGroup`, in which case that payload is decoded in turn
(`ValueError` exits) and its configured group returned. -/
def get_subvol_group (env : Env) (arg : Arg) : Out String :=
  let out := env.cmOut
  if out.stderr.isSome && arg.debug then .exit
  else
    match env.cmJson with
    | none => .exit
    | some cm =>
      match cm.configJson with
      | none => .ok "csi"
      | some cm_data =>
        if pyIn "subvolumeGroup" cm_data then
          match env.cmInner cm_data with
          | none => .exit
          | some grp => .ok grp
        else .ok "csi"

/-- `check_subvol_path(arg, subvol_name, subvol_group, fsname)`
(lines 418-441): runs `ceph fs subvolume getpath`, returns `False` on a
non-`None` stderr or when the output contains `Error`, else `True`. -/
def check_subvol_path (env : Env) (subvol_name subvol_group fsname : String) :
    Bool :=
  let out := env.subvolPath fsname subvol_name subvol_group
  match out.stderr with
  | some _ => false
  | none => if pyIn "Error" out.stdout then false else true

/-- `check_subvol_in_cluster(arg, subvol_name, fsname)` (lines 410-416):
resolves the subvolume group (which may `sys.exit`) then checks the path. -/
def check_subvol_in_cluster (env : Env) (arg : Arg) (subvol_name fsname : String) :
    Out Bool :=
  match get_subvol_group env arg with
  | .exn m => .exn m
  | .exit => .exit
  | .ok grp => .ok (check_subvol_path env subvol_name grp fsname)

/-- `format_table(arg, pvc_data, pvdata, table, is_rbd)` (lines 135-174):
computes the row appended to the table for one claim, or propagates an
uncaught exception / `sys.exit` from a callee. -/
def format_table (env : Env) (arg : Arg) (pvc_data : ClaimObj) (pvdata : PvSpec)
    (is_rbd : Bool) : Out Row :=
  let pvcname := pvc_data.name
  let pvname := pvc_data.volumeName
  let volume_name := get_volume_handler_from_pv env pvname
  if volume_name = "" then
    .ok ⟨pvcname, "", "", false, false, false⟩
  else
    match get_pool_name env arg volume_name is_rbd with
    | .exn m => .exn m
    | .exit => .exit
    | .ok pool_name =>
      if pool_name = "" then
        .ok ⟨pvcname, pvname, "", false, false, false⟩
      else
        match get_image_uuid volume_name with
        | none => .ok ⟨pvcname, pvname, "", false, false, false⟩
        | some image_id =>
          let pfx := get_volname_pfx pvdata
          let checks := validate_volume_in_rados env image_id pvname pool_name is_rbd
          if is_rbd then
            let present := check_image_in_cluster env image_id pool_name pfx
            .ok ⟨pvcname, pvname, pfx ++ image_id, checks.1, checks.2, present⟩
          else
            match get_fsname_from_pvdata pvdata with
            | .exn m => .exn m
            | .exit => .exit
            | .ok fsname =>
              match check_subvol_in_cluster env arg (pfx ++ image_id) fsname with
              | .exn m => .exn m
              | .exit => .exit
              | .ok present =>
                .ok ⟨pvcname, pvname, pfx ++ image_id, checks.1, checks.2, present⟩

/-- One iteration of the loop in `format_and_print_tables` (lines 123-130):
fetch the PV data (which exits on failure), decide the mode, format the row.
The boolean records which table receives the row (`true` = RBD). -/
def process_claim (env : Env) (arg : Arg) (pvc : ClaimObj) : Out (Bool × Row) :=
  match get_pv_data env pvc.volumeName with
  | .exn m => .exn m
  | .exit => .exit
  | .ok pvdata =>
    let rbd := is_rbd_pv pvdata
    match format_table env arg pvc pvdata rbd with
    | .exn m => .exn m
    | .exit => .exit
    | .ok row => .ok (rbd, row)

/-- The batch loop of `format_and_print_tables` over `pvcs['items']`: rows
accumulate per table in claim order; an uncaught exception or `sys.exit`
from any claim aborts the run before either table is printed. -/
def run_batch (env : Env) (arg : Arg) : List ClaimObj → Out (List Row × List Row)
  | [] => .ok ([], [])
  | pvc :: rest =>
    match process_claim env arg pvc with
    | .exn m => .exn m
    | .exit => .exit
    | .ok (rbd, row) =>
      match run_batch env arg rest with
      | .exn m => .exn m
      | .exit => .exit
      | .ok (rbd_rows, fs_rows) =>
        .ok (if rbd then (row :: rbd_rows, fs_rows) else (rbd_rows, row :: fs_rows))

/-- The `if stderr is not None: ... sys.exit()` / `json.loads` prologue of
`list_pvc_vol_name_mapping` (lines 98-110): exits on a non-`None` stderr and
on a `ValueError`, otherwise yields the decoded claim list. -/
def list_pvc_step (out : CmdOut) (parsed : Option (List ClaimObj)) :
    Out (List ClaimObj) :=
  match out.stderr with
  | some _ => .exit
  | none =>
    match parsed with
    | none => .exit
    | some pvcs => .ok pvcs

/-! ## Command-line construction (credential handling)

The four backend commands build their argument vectors before the optional
toolbox `kubectl exec` prefixing step; these definitions embed exactly that
construction (the prefixing step prepends orchestrator arguments and is
orthogonal to the credential flags).  In each, the source guard is
`if not arg.userkey:` — Python string truthiness, i.e. the credential flags
are appended exactly when `userkey` is the empty string. -/

/-- Argument vector of `check_pv_name_in_rados` (lines 188-194). -/
def rados_volumes_default_cmd (userid userkey pvc_name pool_name : String)
    (is_rbd : Bool) : List String :=
  let omapkey := "csi.volume." ++ pvc_name
  let cmd := ["rados", "getomapval", "csi.volumes.default", omapkey,
              "--pool", pool_name]
  let cmd := if userkey = "" then cmd ++ ["--id", userid, "--key", userkey] else cmd
  if is_rbd then cmd else cmd ++ ["--namespace", "csi"]

/-- Argument vector of `check_image_in_cluster` (lines 224-227). -/
def rbd_info_cmd (userid userkey image pool_name : String) : List String :=
  let cmd := ["rbd", "info", image, "--pool", pool_name]
  if userkey = "" then cmd ++ ["--id", userid, "--key", userkey] else cmd

/-- Argument vector of `get_pool_name` (lines 371-376). -/
def pool_listing_cmd (userid userkey : String) (is_rbd : Bool) : List String :=
  let cmd := if is_rbd then ["ceph", "osd", "lspools", "--format=json"]
             else ["ceph", "fs", "ls", "--format=json"]
  if userkey = "" then cmd ++ ["--id", userid, "--key", userkey] else cmd

/-- Argument vector of `check_subvol_path` (lines 422-425). -/
def subvol_getpath_cmd (userid userkey fsname subvol_name subvol_group : String) :
    List String :=
  let cmd := ["ceph", "fs", "subvolume", "getpath", fsname, subvol_name,
              subvol_group]
  if userkey = "" then cmd ++ ["--id", userid, "--key", userkey] else cmd

/-! ## Spec-as-written metadata checks (for refinement comparison) -/

/-- Modelled from the spec: the forward metadata check as the spec words it —
"look up key derived from the claim name in the map named volumes.default …
and assert it equals the decoded image id".  The embedded code instead keys
this lookup by the PV name. -/
def forward_check_spec (env : Env) (claimName image_id : String) : Bool :=
  let out := env.omapVolDefault ("csi.volume." ++ claimName)
  match out.stderr with
  | some _ => false
  | none => parse_omap_value out.stdout == image_id

/-- Modelled from the spec: the reverse metadata check as the spec words it —
"look up key derived from the image id for the value stored under key
volname; assert it equals the claim name".  The embedded code instead
compares against the PV name. -/
def reverse_check_spec (env : Env) (image_id claimName : String) : Bool :=
  let out := env.omapVolname ("csi.volume." ++ image_id)
  match out.stderr with
  | some _ => false
  | none => parse_omap_value out.stdout == claimName

/-! ## Concrete test fixtures -/

/-- A successful `communicate()` capture with the given merged output. -/
def outNone (s : String) : CmdOut := ⟨s, none⟩

/-- Default argument set of the tool (`oc`, rook namespace `rook-ceph`,
user `admin`, empty key, toolbox deployed, no debug). -/
def argD : Arg :=
  ⟨"oc", "", "rook-ceph", "admin", "", true, false⟩

/-- An environment whose every field is inert: empty outputs, no parses. -/
def envEmpty : Env where
  pvOut := fun _ => outNone ""
  pvJson := fun _ => none
  poolsOut := outNone ""
  poolsJson := none
  fsOut := outNone ""
  fsJson := none
  omapVolDefault := fun _ => outNone ""
  omapVolname := fun _ => outNone ""
  rbdInfo := fun _ _ => outNone ""
  subvolPath := fun _ _ _ => outNone ""
  cmOut := outNone ""
  cmJson := none
  cmInner := fun _ => none

/-- The decoded UUID of the scenario volume handle `handleQ`. -/
def uuidQ : String := "1b00-b1c5-11e9-8421-9243"

/-- A block-mode volume handle: 10 dash tokens, pool-id token `2`. -/
def handleQ : String := "0001-0009-rook-2-16-" ++ uuidQ

/-- Scenario claim `rbd-pvcq` bound to PV `pvq`. -/
def claimQ : ClaimObj := ⟨"rbd-pvcq", "pvq"⟩

/-- Scenario environment: the PV `pvq` resolves to `handleQ` with no
`fsName` attribute, the pool listing names pool 2 `replicapool`, both omap
entries hold the matching values in the rados dump format, and `rbd info`
reports `No such file or directory`. -/
def envQ : Env where
  pvOut := fun _ => outNone "pvjson"
  pvJson := fun n => if n = "pvq" then some ⟨handleQ, []⟩ else none
  poolsOut := outNone "poolsjson"
  poolsJson := some [⟨2, "replicapool"⟩]
  fsOut := outNone ""
  fsJson := none
  omapVolDefault := fun k =>
    if k = "csi.volume.pvq" then outNone ("00000000  " ++ uuidQ) else outNone ""
  omapVolname := fun k =>
    if k = "csi.volume." ++ uuidQ then outNone "00000000  pvq" else outNone ""
  rbdInfo := fun _ _ =>
    outNone "rbd: error opening image: (2) No such file or directory"
  subvolPath := fun _ _ _ => outNone ""
  cmOut := outNone ""
  cmJson := none
  cmInner := fun _ => none

/-- Environment for the pool-id identity-comparison bug: the pool listing
holds a pool numbered 300 (outside CPython's small-integer cache) and a pool
numbered 2 (inside it). -/
def env300 : Env :=
  { envEmpty with
    poolsOut := outNone "poolsjson"
    poolsJson := some [⟨300, "bigpool"⟩, ⟨2, "replicapool"⟩] }

/-- Environment refuting the claim that the metadata checks key on the claim
name: the forward map holds the correct image id under the claim-name key
`csi.volume.rbd-pvc` (and nothing under the PV-name key), and the reverse
map holds the PV name `pv1` under the image-id key. -/
def envC3 : Env :=
  { envEmpty with
    omapVolDefault := fun k =>
      if k = "csi.volume.rbd-pvc" then outNone "00000000  abc-123" else outNone ""
    omapVolname := fun k =>
      if k = "csi.volume.abc-123" then outNone "00000000  pv1" else outNone "" }

/-- Batch of two claims whose first PV's `get pv` output is not decodable
JSON (the environment `envEmpty` parses no PV), while using `envQ` would
resolve the second claim; used to refute "resolution failures never
terminate the whole batch". -/
def claimsC1 : List ClaimObj := [⟨"c1", "pv-bad"⟩, ⟨"c2", "pvq"⟩]

/-- The contribution of one already-stripped dump line to the reconstructed
omap value: nothing for a line without a space or an annotation line
(containing both `value` and `bytes`), else the line's last
alphanumeric/dash run. -/
def omap_line_value (line : String) : String :=
  if pyIn " " line = false then ""
  else if pyIn "value" line && pyIn "bytes" line then ""
  else ((wordRuns line).getLast?).getD ""

/-- Concatenation of a list of strings in order. -/
def strConcat : List String → String
  | [] => ""
  | x :: xs => x ++ strConcat xs

/-- An environment in which every subprocess was opened with
`stderr=subprocess.STDOUT`, so every `communicate()` call returned `None`
for stderr — which is how every `Popen` in the source is opened. -/
def EnvMerged (env : Env) : Prop :=
  (∀ n, (env.pvOut n).stderr = none)
  ∧ env.poolsOut.stderr = none
  ∧ env.fsOut.stderr = none
  ∧ (∀ k, (env.omapVolDefault k).stderr = none)
  ∧ (∀ k, (env.omapVolname k).stderr = none)
  ∧ (∀ i p, (env.rbdInfo i p).stderr = none)
  ∧ (∀ a b c, (env.subvolPath a b c).stderr = none)
  ∧ env.cmOut.stderr = none

/-- Environment whose pool listing subprocess reports on stderr (only
possible if a pipe were used; the code still guards on it). -/
def envStderr : Env :=
  { envEmpty with
    poolsOut := ⟨"", some "boom"⟩
    fsOut := ⟨"", some "boom"⟩ }

/-- `envStderr` with resolvable PV documents: the handle resolves but the
pool listing subprocess reports on stderr. -/
def envStderrPv : Env :=
  { envStderr with
    pvOut := fun _ => outNone "pvjson"
    pvJson := fun _ => some ⟨"h-a-b", []⟩ }

/-- A variant of `envQ` that differs in the reverse-map and image-describe
outputs but agrees on the forward map, used to witness that the forward
boolean depends only on its own external call. -/
def envQvar : Env :=
  { envQ with
    omapVolname := fun _ => outNone "zz zz"
    rbdInfo := fun _ _ => outNone "size 1 GiB" }

/-- Environment in which `rbd info` fails with an authorization error: the
message is merged into stdout and contains no `No such file or directory`. -/
def envPermErr : Env :=
  { envEmpty with
    rbdInfo := fun _ _ =>
      outNone "rbd: error opening image: (1) Operation not permitted" }

/-- Environment whose PV documents parse but carry an empty volume handle. -/
def envH0 : Env :=
  { envEmpty with
    pvOut := fun _ => outNone "pvjson"
    pvJson := fun _ => some ⟨"", []⟩ }

/-! ## Helper lemmas -/

/-- The omap reconstruction loop equals the accumulator followed by the
per-line contributions, in order. -/
theorem omap_loop_concat (ls : List String) : ∀ name : String,
    omap_loop name ls = name ++ strConcat (ls.map omap_line_value) := by
  induction ls with
  | nil =>
    intro name
    simp [omap_loop, strConcat, String.append_empty]
  | cons l rest ih =>
    intro name
    cases hsp : pyIn " " l with
    | false =>
      simp [omap_loop, hsp, omap_line_value, strConcat, ih, String.empty_append]
    | true =>
      cases hann : (pyIn "value" l && pyIn "bytes" l) with
      | true =>
        simp [omap_loop, hsp, hann, omap_line_value, strConcat, ih,
          String.empty_append]
      | false =>
        cases hlast : (wordRuns l).getLast? with
        | none =>
          simp [omap_loop, hsp, hann, hlast, omap_line_value, strConcat, ih,
            String.empty_append]
        | some part =>
          simp [omap_loop, hsp, hann, hlast, omap_line_value, strConcat, ih,
            String.append_assoc]

/-- CPython `is` on the two parsed integers implies numeric equality. -/
theorem pyIntIs_eq (n m : Int) (h : pyIntIs n m = true) : n = m := by
  simp only [pyIntIs, Bool.and_eq_true, beq_iff_eq, decide_eq_true_eq] at h
  exact h.1.1

/-- The pool scan returns the empty string when no listed pool carries the
extracted numeric id. -/
theorem find_pool_no_match (tok : String) (n : Int)
    (hn : pyIntParse tok = some n) :
    ∀ ps : List Pool, (∀ p ∈ ps, p.poolnum ≠ n) → find_pool tok ps = .ok "" := by
  intro ps
  induction ps with
  | nil => intro _; rfl
  | cons p ps ih =>
    intro hall
    have hne : p.poolnum ≠ n := hall p (List.mem_cons_self p ps)
    cases his : pyIntIs n p.poolnum with
    | true => exact absurd (pyIntIs_eq n p.poolnum his).symm hne
    | false =>
      have := ih (fun q hq => hall q (List.mem_cons_of_mem p hq))
      simp [find_pool, hn, his, this]

/-! ## Claim theorems -/

/-- C2 (counterexample): on the spec's own example dump lines
`["00000000  76 61 6c 75 65 (6 bytes)", "ab-12-cd"]` the reconstructed value
is `"bytes"`, not the claimed `"ab-12-cd"`: the first line is not an
annotation line (it does not contain the literal `value`) and its *last*
alphanumeric/dash run is `bytes`, while the `ab-12-cd` line contains no
space and is skipped. -/
theorem c2_counterexample :
    parse_omap_value "00000000  76 61 6c 75 65 (6 bytes)\nab-12-cd" = "bytes"
    ∧ "bytes" ≠ "ab-12-cd" := by
  exact ⟨by decide, by decide⟩

/-- C2 (amended): the metadata value parser ignores annotation lines (lines
containing both `value` and `bytes`) and blank/no-space lines, and
reconstructs the stored value by extracting the LAST alphanumeric/dash run
of every remaining stripped line, concatenated in order; a value split
across a real `rados getomapval` hex dump is thereby recovered: for the dump
`value (8 bytes) :` / `00000000  61 62 2d 31 32 2d 63 64  |ab-12-cd|` /
`00000008` the reconstructed value is `ab-12-cd`. -/
theorem c2_last_run_parsing :
    (∀ ls : List String,
      parse_omap_lines ls
        = strConcat (ls.map (fun l => omap_line_value (pyStrip l))))
    ∧ parse_omap_value
        "value (8 bytes) :\n00000000  61 62 2d 31 32 2d 63 64  |ab-12-cd|\n00000008"
        = "ab-12-cd" := by
  constructor
  · intro ls
    rw [parse_omap_lines, omap_loop_concat, String.empty_append, List.map_map]
    rfl
  · decide

/-- C5: the volume-handle decoder returns `none` for handles with fewer than
9 dash-delimited tokens (and never raises — it is total), returns the last 5
tokens rejoined with dashes for handles with 9 or more tokens, is
deterministic, and decodes `pvc-1234-rbd-rook-ceph-a-b-c-d-e` to
`a-b-c-d-e`. -/
theorem c5_image_uuid_decoder :
    (∀ h : String,
      ((pySplitChar '-' h).length < 9 → get_image_uuid h = none)
      ∧ (9 ≤ (pySplitChar '-' h).length →
          get_image_uuid h
            = some (joinWith "-"
                ((pySplitChar '-' h).drop ((pySplitChar '-' h).length - 5)))))
    ∧ (∀ h1 h2 : String, h1 = h2 → get_image_uuid h1 = get_image_uuid h2)
    ∧ get_image_uuid "pvc-1234-rbd-rook-ceph-a-b-c-d-e" = some "a-b-c-d-e" := by
  refine ⟨fun h => ⟨fun hlt => ?_, fun hge => ?_⟩,
    fun h1 h2 e => by rw [e], by decide⟩
  · simp [get_image_uuid, hlt]
  · simp [get_image_uuid, Nat.not_lt.mpr hge]

/-- C5 (witness): the decoder theorem applied at a 2-token handle and at the
spec's example handle. -/
theorem c5_witness :
    get_image_uuid "a-b" = none
    ∧ get_image_uuid "pvc-1234-rbd-rook-ceph-a-b-c-d-e"
        = some (joinWith "-"
            ((pySplitChar '-' "pvc-1234-rbd-rook-ceph-a-b-c-d-e").drop
              ((pySplitChar '-' "pvc-1234-rbd-rook-ceph-a-b-c-d-e").length - 5))) :=
  ⟨(c5_image_uuid_decoder.1 "a-b").1 (by decide),
   (c5_image_uuid_decoder.1 "pvc-1234-rbd-rook-ceph-a-b-c-d-e").2 (by decide)⟩

/-- C6 (code bug): block-mode pool resolution selects the namespace-aware
token (token 3, or token 4 when token 3 is a substring of the rook
namespace) — but the final match uses CPython `is` on the two integers
(`int(pool_id) is int(pool['poolnum'])`, line 403), which holds only for
equal values inside the cached small-integer range -5..256.  With a pool
numbered 300 in the listing and a handle whose pool-id token is `300`, the
resolver returns `""` instead of `bigpool`, although a pool whose numeric id
equals the extracted pool id exists; for ids within the cache (2, both token
offsets) it returns the matching name, confirming numeric-id matching is the
intent. -/
theorem c6_pool_id_identity_comparison :
    env300.poolsJson = some [⟨300, "bigpool"⟩, ⟨2, "replicapool"⟩]
    ∧ get_pool_name env300 argD "0001-0009-rook-300-csi-a-b-c-d-e" true = .ok ""
    ∧ get_pool_name env300 argD "0001-0009-rook-2-csi-a-b-c-d-e" true
        = .ok "replicapool"
    ∧ get_pool_name env300 argD "0001-0009-rook-ceph-0000000000000002-a-b-c-d-e"
        true = .ok "replicapool" := by
  exact ⟨rfl, by decide, by decide, by decide⟩

/-- C7: the block-mode inventory check is `false` exactly when the
image-describe output carries a non-`None` stderr or contains
`No such file or directory`, and `true` for any other output; and in the
end-to-end scenario (claim `rbd-pvcq`, matching omap entries, image-describe
reporting `No such file or directory`) the row is
`(rbd-pvcq, pvq, csi-vol-<uuid>, True, True, False)`.  The embedded check is
total, so no error is raised. -/
theorem c7_image_in_cluster :
    (∀ (env : Env) (image_uuid pool_name pfx : String),
      check_image_in_cluster env image_uuid pool_name pfx
        = (!(env.rbdInfo (pfx ++ image_uuid) pool_name).stderr.isSome
           && !pyIn "No such file or directory"
                (env.rbdInfo (pfx ++ image_uuid) pool_name).stdout))
    ∧ process_claim envQ argD claimQ
        = .ok (true, ⟨"rbd-pvcq", "pvq", "csi-vol-" ++ uuidQ, true, true, false⟩) := by
  constructor
  · intro env u p f
    cases h : (env.rbdInfo (f ++ u) p).stderr with
    | some e => simp [check_image_in_cluster, h]
    | none =>
      cases hin : pyIn "No such file or directory" (env.rbdInfo (f ++ u) p).stdout with
      | true => simp [check_image_in_cluster, h, hin]
      | false => simp [check_image_in_cluster, h, hin]
  · decide

/-- C8: the forward-map and reverse-map checks are commutative and
independent: computing them in either order yields the same pair, each
component is exactly its standalone check, and each boolean depends only on
its own external-call output (replacing the other call's output leaves it
unchanged). -/
theorem c8_checks_independent_commutative :
    (∀ (env : Env) (image_id pvc_name pool_name : String) (is_rbd : Bool),
      validate_volume_in_rados env image_id pvc_name pool_name is_rbd
        = validate_volume_in_rados_rev env image_id pvc_name pool_name is_rbd
      ∧ (validate_volume_in_rados env image_id pvc_name pool_name is_rbd).1
          = check_pv_name_in_rados env image_id pvc_name pool_name is_rbd
      ∧ (validate_volume_in_rados env image_id pvc_name pool_name is_rbd).2
          = check_image_uuid_in_rados env image_id pvc_name pool_name is_rbd)
    ∧ (∀ (env env' : Env) (image_id pvc_name pool_name : String) (is_rbd : Bool),
        (∀ k, env.omapVolDefault k = env'.omapVolDefault k) →
        (validate_volume_in_rados env image_id pvc_name pool_name is_rbd).1
          = (validate_volume_in_rados env' image_id pvc_name pool_name is_rbd).1)
    ∧ (∀ (env env' : Env) (image_id pvc_name pool_name : String) (is_rbd : Bool),
        (∀ k, env.omapVolname k = env'.omapVolname k) →
        (validate_volume_in_rados env image_id pvc_name pool_name is_rbd).2
          = (validate_volume_in_rados env' image_id pvc_name pool_name is_rbd).2) := by
  refine ⟨fun env i n p r => ⟨rfl, rfl, rfl⟩, ?_, ?_⟩
  · intro env env' i n p r hagree
    simp [validate_volume_in_rados, check_pv_name_in_rados, hagree]
  · intro env env' i n p r hagree
    simp [validate_volume_in_rados, check_image_uuid_in_rados, hagree]

/-- C8 (witness): the independence theorem applied to `envQ` and its variant
`envQvar`, which differ in the reverse-map and image-describe outputs but
agree on the forward map. -/
theorem c8_witness :
    (validate_volume_in_rados envQ "u1" "pvq" "replicapool" true).1
      = (validate_volume_in_rados envQvar "u1" "pvq" "replicapool" true).1 :=
  c8_checks_independent_commutative.2.1 envQ envQvar "u1" "pvq" "replicapool" true
    (fun _ => rfl)

/-- C4: the pool resolver fails closed — it returns `""` (inside a normal
`.ok`, i.e. without raising) whenever the listing subprocess reports on
stderr, whenever the listing fails to JSON-decode, and whenever no listed
pool matches the extracted pool id (either token offset; filesystem mode:
empty listing) — and the caller `format_table` treats the empty string as
"mark the row unresolved", appending a degraded row. -/
theorem c4_pool_resolver_fails_closed :
    (∀ (env : Env) (arg : Arg) (vol_id : String) (is_rbd : Bool) (e : String),
      (if is_rbd then env.poolsOut else env.fsOut).stderr = some e →
      get_pool_name env arg vol_id is_rbd = .ok "")
    ∧ (∀ (env : Env) (arg : Arg) (vol_id : String),
        env.poolsOut.stderr = none → env.poolsJson = none →
        get_pool_name env arg vol_id true = .ok "")
    ∧ (∀ (env : Env) (arg : Arg) (vol_id : String),
        env.fsOut.stderr = none → env.fsJson = none →
        get_pool_name env arg vol_id false = .ok "")
    ∧ (∀ (env : Env) (arg : Arg) (vol_id : String),
        env.fsOut.stderr = none → env.fsJson = some [] →
        get_pool_name env arg vol_id false = .ok "")
    ∧ (∀ (env : Env) (arg : Arg) (vol_id : String) (pools : List Pool) (n : Int),
        env.poolsOut.stderr = none → env.poolsJson = some pools →
        ¬ (pySplitChar '-' vol_id).length < 4 →
        pyIn ((pySplitChar '-' vol_id).getD 3 "") arg.rooknamespace = false →
        pyIntParse ((pySplitChar '-' vol_id).getD 3 "") = some n →
        (∀ p ∈ pools, p.poolnum ≠ n) →
        get_pool_name env arg vol_id true = .ok "")
    ∧ (∀ (env : Env) (arg : Arg) (vol_id : String) (pools : List Pool) (n : Int),
        env.poolsOut.stderr = none → env.poolsJson = some pools →
        ¬ (pySplitChar '-' vol_id).length ≤ 4 →
        pyIn ((pySplitChar '-' vol_id).getD 3 "") arg.rooknamespace = true →
        pyIntParse ((pySplitChar '-' vol_id).getD 4 "") = some n →
        (∀ p ∈ pools, p.poolnum ≠ n) →
        get_pool_name env arg vol_id true = .ok "")
    ∧ (∀ (env : Env) (arg : Arg) (claim : ClaimObj) (pvdata : PvSpec)
        (is_rbd : Bool),
        get_volume_handler_from_pv env claim.volumeName ≠ "" →
        get_pool_name env arg (get_volume_handler_from_pv env claim.volumeName)
          is_rbd = .ok "" →
        format_table env arg claim pvdata is_rbd
          = .ok ⟨claim.name, claim.volumeName, "", false, false, false⟩) := by
  refine ⟨?_, ?_, ?_, ?_, ?_, ?_, ?_⟩
  · intro env arg v rb e h
    cases rb <;> simp_all [get_pool_name]
  · intro env arg v h1 h2
    simp [get_pool_name, h1, h2]
  · intro env arg v h1 h2
    simp [get_pool_name, h1, h2]
  · intro env arg v h1 h2
    simp [get_pool_name, h1, h2]
  · intro env arg v pools n h1 h2 hlen hns hparse hnom
    simp only [List.getD, List.get?_eq_getElem?] at hns hparse
    simp [get_pool_name, h1, h2, hlen, hns,
      find_pool_no_match _ n hparse pools hnom]
  · intro env arg v pools n h1 h2 hlen hns hparse hnom
    simp only [List.getD, List.get?_eq_getElem?] at hns hparse
    have hlen4 : ¬ (pySplitChar '-' v).length < 4 := by omega
    simp [get_pool_name, h1, h2, hlen, hlen4, hns,
      find_pool_no_match _ n hparse pools hnom]
  · intro env arg claim pvdata rb hvh hp
    simp [format_table, hvh, hp]

/-- C4 (witness): the fails-closed theorem applied at concrete
environments — a stderr-reporting listing, an undecodable listing, and a
listing containing no pool numbered 7. -/
theorem c4_witness :
    get_pool_name envStderr argD "x" true = .ok ""
    ∧ get_pool_name envEmpty argD "x" true = .ok ""
    ∧ get_pool_name env300 argD "a-b-c-7-x-y" true = .ok ""
    ∧ format_table envStderrPv argD ⟨"c", "pv"⟩ ⟨"h-a-b", []⟩ true
        = .ok ⟨"c", "pv", "", false, false, false⟩ := by
  refine ⟨?_, ?_, ?_, ?_⟩
  · exact c4_pool_resolver_fails_closed.1 envStderr argD "x" true "boom" rfl
  · exact c4_pool_resolver_fails_closed.2.1 envEmpty argD "x" rfl rfl
  · exact c4_pool_resolver_fails_closed.2.2.2.2.1 env300 argD "a-b-c-7-x-y"
      [⟨300, "bigpool"⟩, ⟨2, "replicapool"⟩] 7 rfl rfl (by decide) (by decide)
      (by decide) (by decide)
  · exact c4_pool_resolver_fails_closed.2.2.2.2.2.2 envStderrPv argD ⟨"c", "pv"⟩
      ⟨"h-a-b", []⟩ true (by decide)
      (c4_pool_resolver_fails_closed.1 envStderrPv argD "h-a-b" true "boom" rfl)

/-- Every subprocess output in `envQ` was captured with merged stderr. -/
theorem envQ_merged : EnvMerged envQ := by
  refine ⟨fun n => rfl, rfl, rfl, fun k => ?_, fun k => ?_,
    fun i p => rfl, fun a b c => rfl, rfl⟩
  · by_cases h : k = "csi.volume.pvq" <;> simp [envQ, outNone, h]
  · by_cases h : k = "csi.volume." ++ uuidQ <;> simp [envQ, outNone, h]

/-- C9 (implicit): every external command is spawned with
`stderr=subprocess.STDOUT`, so `communicate()` returns `None` for stderr;
under that condition every `if stderr is not None` branch is dead — the
claim-list prologue exits only on a JSON failure, and each check is decided
purely by its merged output — and a failing command whose merged output
parses (or lacks the checked substring) is reported as success/presence:
an `Operation not permitted` failure of `rbd info` yields `True`. -/
theorem c9_stderr_branches_unreachable :
    (∀ s : String, (communicate_merged s).stderr = none)
    ∧ (∀ (s : String) (parsed : Option (List ClaimObj)),
        list_pvc_step (communicate_merged s) parsed
          = match parsed with
            | none => Out.exit
            | some pvcs => Out.ok pvcs)
    ∧ (∀ env : Env, EnvMerged env →
        ∀ (image_id pvc_name pool_name pfx : String) (is_rbd : Bool),
        check_pv_name_in_rados env image_id pvc_name pool_name is_rbd
          = (parse_omap_value
              (env.omapVolDefault ("csi.volume." ++ pvc_name)).stdout == image_id)
        ∧ check_image_uuid_in_rados env image_id pvc_name pool_name is_rbd
          = (parse_omap_value
              (env.omapVolname ("csi.volume." ++ image_id)).stdout == pvc_name)
        ∧ check_image_in_cluster env image_id pool_name pfx
          = !pyIn "No such file or directory"
              (env.rbdInfo (pfx ++ image_id) pool_name).stdout
        ∧ (∀ grp fsname, check_subvol_path env image_id grp fsname
            = !pyIn "Error" (env.subvolPath fsname image_id grp).stdout))
    ∧ check_image_in_cluster envPermErr "u" "pool" "csi-vol-" = true := by
  refine ⟨fun s => rfl, fun s parsed => rfl, ?_, by decide⟩
  intro env hm image_id pvc_name pool_name pfx is_rbd
  obtain ⟨hpv, hpools, hfs, hdef, hvn, hrbd, hsub, hcm⟩ := hm
  refine ⟨?_, ?_, ?_, ?_⟩
  · simp [check_pv_name_in_rados, hdef]
  · simp [check_image_uuid_in_rados, hvn]
  · cases hin : pyIn "No such file or directory"
      (env.rbdInfo (pfx ++ image_id) pool_name).stdout <;>
      simp [check_image_in_cluster, hrbd, hin]
  · intro grp fsname
    cases hin : pyIn "Error" (env.subvolPath fsname image_id grp).stdout <;>
      simp [check_subvol_path, hsub, hin]

/-- C9 (witness): the dead-branch theorem applied to the concrete merged
environment `envQ`. -/
theorem c9_witness :
    check_pv_name_in_rados envQ "u7" "pvq" "replicapool" true
      = (parse_omap_value
          (envQ.omapVolDefault ("csi.volume." ++ "pvq")).stdout == "u7") :=
  (c9_stderr_branches_unreachable.2.2.1 envQ envQ_merged
    "u7" "pvq" "replicapool" "csi-vol-" true).1

/-- C10 (implicit): each of the four backend commands appends the credential
arguments `--id <userid> --key <userkey>` exactly when the supplied user key
is the empty string — thereby passing an empty `--key` value — and omits
them entirely (the command equals its bare form) when a non-empty key is
supplied; independently, the pool-listing command contains `--key` exactly
when the key is empty. -/
theorem c10_credential_args :
    (∀ (userid userkey pvc_name pool_name image fsname subvol_name
        subvol_group : String) (is_rbd : Bool),
      (userkey = "" →
        rados_volumes_default_cmd userid userkey pvc_name pool_name is_rbd
          = ["rados", "getomapval", "csi.volumes.default",
             "csi.volume." ++ pvc_name, "--pool", pool_name,
             "--id", userid, "--key", userkey]
            ++ (if is_rbd then [] else ["--namespace", "csi"])
        ∧ rbd_info_cmd userid userkey image pool_name
          = ["rbd", "info", image, "--pool", pool_name,
             "--id", userid, "--key", userkey]
        ∧ pool_listing_cmd userid userkey is_rbd
          = (if is_rbd then ["ceph", "osd", "lspools", "--format=json"]
             else ["ceph", "fs", "ls", "--format=json"])
            ++ ["--id", userid, "--key", userkey]
        ∧ subvol_getpath_cmd userid userkey fsname subvol_name subvol_group
          = ["ceph", "fs", "subvolume", "getpath", fsname, subvol_name,
             subvol_group, "--id", userid, "--key", userkey])
      ∧ (userkey ≠ "" →
        rados_volumes_default_cmd userid userkey pvc_name pool_name is_rbd
          = ["rados", "getomapval", "csi.volumes.default",
             "csi.volume." ++ pvc_name, "--pool", pool_name]
            ++ (if is_rbd then [] else ["--namespace", "csi"])
        ∧ rbd_info_cmd userid userkey image pool_name
          = ["rbd", "info", image, "--pool", pool_name]
        ∧ pool_listing_cmd userid userkey is_rbd
          = (if is_rbd then ["ceph", "osd", "lspools", "--format=json"]
             else ["ceph", "fs", "ls", "--format=json"])
        ∧ subvol_getpath_cmd userid userkey fsname subvol_name subvol_group
          = ["ceph", "fs", "subvolume", "getpath", fsname, subvol_name,
             subvol_group]))
    ∧ (∀ (userid userkey : String) (is_rbd : Bool),
        (pool_listing_cmd userid userkey is_rbd).contains "--key"
          = (userkey == "")) := by
  constructor
  · intro userid userkey pvc_name pool_name image fsname subvol_name
      subvol_group is_rbd
    constructor
    · intro hk
      refine ⟨?_, ?_, ?_, ?_⟩ <;>
        cases is_rbd <;>
          simp [rados_volumes_default_cmd, rbd_info_cmd, pool_listing_cmd,
            subvol_getpath_cmd, hk]
    · intro hk
      refine ⟨?_, ?_, ?_, ?_⟩ <;>
        cases is_rbd <;>
          simp [rados_volumes_default_cmd, rbd_info_cmd, pool_listing_cmd,
            subvol_getpath_cmd, hk]
  · intro userid userkey is_rbd
    by_cases hk : userkey = "" <;>
      cases is_rbd <;> simp [pool_listing_cmd, hk]

/-- C10 (witness): the credential theorem applied at the tool's default
arguments (empty key) and at a non-empty key. -/
theorem c10_witness :
    rbd_info_cmd "admin" "" "csi-vol-u" "replicapool"
      = ["rbd", "info", "csi-vol-u", "--pool", "replicapool",
         "--id", "admin", "--key", ""]
    ∧ rbd_info_cmd "admin" "secret" "csi-vol-u" "replicapool"
      = ["rbd", "info", "csi-vol-u", "--pool", "replicapool"] :=
  ⟨((c10_credential_args.1 "admin" "" "p" "replicapool" "csi-vol-u" "f" "s" "g"
      true).1 rfl).2.1,
   ((c10_credential_args.1 "admin" "secret" "p" "replicapool" "csi-vol-u" "f"
      "s" "g" true).2 (by decide)).2.1⟩

/-- C3 (counterexample): the metadata checks do NOT key on the claim name.
In `envC3` the store holds the image id `abc-123` under the claim-name key
`csi.volume.rbd-pvc` and the PV name `pv1` under `csi.volume.abc-123`
(claim name `rbd-pvc`, PV name `pv1`).  The spec-worded forward check
(claim-name key) succeeds, yet the code's forward check returns `false`
because it looks up the PV-name key; the code's reverse check returns `true`
because it compares against the PV name, while the spec-worded comparison
against the claim name fails; the row pair is `(false, true)` where the
claim predicts `(true, true)`. -/
theorem c3_counterexample :
    forward_check_spec envC3 "rbd-pvc" "abc-123" = true
    ∧ check_pv_name_in_rados envC3 "abc-123" "pv1" "p" true = false
    ∧ reverse_check_spec envC3 "abc-123" "rbd-pvc" = false
    ∧ check_image_uuid_in_rados envC3 "abc-123" "pv1" "p" true = true
    ∧ validate_volume_in_rados envC3 "abc-123" "pv1" "p" true = (false, true) := by
  exact ⟨by decide, by decide, by decide, by decide, by decide⟩

/-- C3 (amended): for every claim on the full block-mode resolution path,
the forward metadata check looks up the key derived from the BOUND VOLUME
(PV) name — `csi.volume.<pvName>` — in `csi.volumes.default` and asserts the
parsed value equals the decoded image id, and the reverse check looks up
object `csi.volume.<imageId>`, key `csi.volname`, and asserts the parsed
value equals the PV name (not the claim name). -/
theorem c3_row_uses_pv_name :
    (∀ (env : Env) (arg : Arg) (claim : ClaimObj) (pvdata : PvSpec)
        (pool_name image_id : String),
      get_volume_handler_from_pv env claim.volumeName ≠ "" →
      get_pool_name env arg (get_volume_handler_from_pv env claim.volumeName)
        true = .ok pool_name →
      pool_name ≠ "" →
      get_image_uuid (get_volume_handler_from_pv env claim.volumeName)
        = some image_id →
      format_table env arg claim pvdata true
        = .ok ⟨claim.name, claim.volumeName, get_volname_pfx pvdata ++ image_id,
            check_pv_name_in_rados env image_id claim.volumeName pool_name true,
            check_image_uuid_in_rados env image_id claim.volumeName pool_name true,
            check_image_in_cluster env image_id pool_name (get_volname_pfx pvdata)⟩)
    ∧ (∀ (env : Env) (image_id pvname pool_name : String) (is_rbd : Bool),
        check_pv_name_in_rados env image_id pvname pool_name is_rbd
          = ((env.omapVolDefault ("csi.volume." ++ pvname)).stderr.isNone
             && (parse_omap_value
                  (env.omapVolDefault ("csi.volume." ++ pvname)).stdout
                  == image_id))
        ∧ check_image_uuid_in_rados env image_id pvname pool_name is_rbd
          = ((env.omapVolname ("csi.volume." ++ image_id)).stderr.isNone
             && (parse_omap_value
                  (env.omapVolname ("csi.volume." ++ image_id)).stdout
                  == pvname))) := by
  constructor
  · intro env arg claim pvdata pool_name image_id hvh hp hpn hid
    simp [format_table, hvh, hp, hpn, hid, validate_volume_in_rados]
  · intro env image_id pvname pool_name is_rbd
    constructor
    · cases h : (env.omapVolDefault ("csi.volume." ++ pvname)).stderr <;>
        simp [check_pv_name_in_rados, h]
    · cases h : (env.omapVolname ("csi.volume." ++ image_id)).stderr <;>
        simp [check_image_uuid_in_rados, h]

/-- C3 (witness): the amended row theorem applied to the concrete scenario
environment `envQ`. -/
theorem c3_witness :
    format_table envQ argD claimQ ⟨handleQ, []⟩ true
      = .ok ⟨claimQ.name, claimQ.volumeName, get_volname_pfx ⟨handleQ, []⟩ ++ uuidQ,
          check_pv_name_in_rados envQ uuidQ claimQ.volumeName "replicapool" true,
          check_image_uuid_in_rados envQ uuidQ claimQ.volumeName "replicapool" true,
          check_image_in_cluster envQ uuidQ "replicapool"
            (get_volname_pfx ⟨handleQ, []⟩)⟩ :=
  c3_row_uses_pv_name.1 envQ argD claimQ ⟨handleQ, []⟩ "replicapool" uuidQ
    (by decide) (by decide) (by decide) (by decide)

/-- C1 (counterexample): a claim whose bound PV cannot be resolved does NOT
produce a degraded row — `get_pv_data` reaches `sys.exit()` on an
undecodable `get pv` output, so the whole batch terminates before any table
is printed: with the first claim's PV unparseable, the two-claim batch ends
in `exit` and yields no rows at all. -/
theorem c1_pv_fetch_failure_exits_batch :
    run_batch envEmpty argD claimsC1 = .exit
    ∧ get_pv_data envEmpty "pv-bad" = .exit := by
  exact ⟨by decide, by decide⟩

/-- C1 (amended): failures that yield an empty volume handle, an empty pool
name, or an undecodable UUID degrade only that claim's row (claim name kept,
remaining fields empty/false) and the batch continues to the next claim; but
a claim whose PV data fetch fails terminates the whole run via `sys.exit`
(so an unresolvable bound volume aborts the batch instead of producing a
row), and a non-empty handle with fewer than 4 dash tokens makes the pool
resolver raise, which also aborts the batch. -/
theorem c1_row_degradation_and_batch_exit :
    (∀ (env : Env) (arg : Arg) (claim : ClaimObj) (pvdata : PvSpec)
        (is_rbd : Bool),
      (get_volume_handler_from_pv env claim.volumeName = "" →
        format_table env arg claim pvdata is_rbd
          = .ok ⟨claim.name, "", "", false, false, false⟩)
      ∧ (get_volume_handler_from_pv env claim.volumeName ≠ "" →
          get_pool_name env arg (get_volume_handler_from_pv env claim.volumeName)
            is_rbd = .ok "" →
          format_table env arg claim pvdata is_rbd
            = .ok ⟨claim.name, claim.volumeName, "", false, false, false⟩)
      ∧ (∀ pool_name,
          get_volume_handler_from_pv env claim.volumeName ≠ "" →
          get_pool_name env arg (get_volume_handler_from_pv env claim.volumeName)
            is_rbd = .ok pool_name →
          pool_name ≠ "" →
          get_image_uuid (get_volume_handler_from_pv env claim.volumeName)
            = none →
          format_table env arg claim pvdata is_rbd
            = .ok ⟨claim.name, claim.volumeName, "", false, false, false⟩))
    ∧ (∀ (env : Env) (arg : Arg) (claim : ClaimObj) (rest : List ClaimObj),
        get_pv_data env claim.volumeName = .exit →
        run_batch env arg (claim :: rest) = .exit)
    ∧ (∀ (env : Env) (arg : Arg) (vol_id : String) (pools : List Pool),
        env.poolsOut.stderr = none → env.poolsJson = some pools →
        (pySplitChar '-' vol_id).length < 4 →
        get_pool_name env arg vol_id true
          = .exn "pool id not in the proper format")
    ∧ (∀ (env : Env) (arg : Arg) (claim : ClaimObj) (rest : List ClaimObj)
        (m : String),
        process_claim env arg claim = .exn m →
        run_batch env arg (claim :: rest) = .exn m)
    ∧ (∀ (env : Env) (arg : Arg) (claim : ClaimObj) (rest : List ClaimObj)
        (rbd : Bool) (row : Row),
        process_claim env arg claim = .ok (rbd, row) →
        run_batch env arg (claim :: rest)
          = match run_batch env arg rest with
            | .exn m => .exn m
            | .exit => .exit
            | .ok (rbd_rows, fs_rows) =>
              .ok (if rbd then (row :: rbd_rows, fs_rows)
                   else (rbd_rows, row :: fs_rows))) := by
  refine ⟨?_, ?_, ?_, ?_, ?_⟩
  · intro env arg claim pvdata is_rbd
    refine ⟨fun h => ?_, fun h1 h2 => ?_, fun pool_name h1 h2 h3 h4 => ?_⟩
    · simp [format_table, h]
    · simp [format_table, h1, h2]
    · simp [format_table, h1, h2, h3, h4]
  · intro env arg claim rest h
    simp [run_batch, process_claim, h]
  · intro env arg v pools h1 h2 hlen
    simp [get_pool_name, h1, h2, hlen]
  · intro env arg claim rest m h
    simp [run_batch, h]
  · intro env arg claim rest rbd row h
    simp [run_batch, h]

/-- C1 (witness): the amended theorem applied at concrete environments — an
empty-handle claim degrades to a row and an unparseable PV exits the batch. -/
theorem c1_witness :
    format_table envH0 argD ⟨"c0", "pv0"⟩ ⟨"", []⟩ true
      = .ok ⟨"c0", "", "", false, false, false⟩
    ∧ run_batch envEmpty argD [⟨"cx", "pvx"⟩] = .exit :=
  ⟨(c1_row_degradation_and_batch_exit.1 envH0 argD ⟨"c0", "pv0"⟩ ⟨"", []⟩
      true).1 (by decide),
   c1_row_degradation_and_batch_exit.2.1 envEmpty argD ⟨"cx", "pvx"⟩ []
     (by decide)⟩

end Tracevol
